/-
Verification of the cloud-service-broker core against its specification.

The Go source is shallowly embedded: pure functions become Lean functions,
stateful broker code becomes explicit state passing with an event trace,
fallible code returns Except, Go byte slices become lists of Nat, and Go
maps (unique keys) become association lists read with first-match lookup.
-/
import Mathlib

namespace CSB

/-! ## Terraform version compatibility check
Embeds src/pkg/providers/tf/terraform_upgrade_checker.go.
Versions are semantic versions compared segment-wise, as the
hashicorp go-version library does for plain release versions. -/

structure TfVersion where
  major : Nat
  minor : Nat
  patch : Nat
deriving DecidableEq, Repr

/-- Segment-wise (lexicographic) strict order, as go-version LessThan. -/
def TfVersion.lessThan (a b : TfVersion) : Bool :=
  if a.major ≠ b.major then a.major < b.major
  else if a.minor ≠ b.minor then a.minor < b.minor
  else a.patch < b.patch

structure TfBinContext where
  defaultTfVersion : TfVersion

/-- A workspace as seen by the checker: its StateVersion method,
which reads the recorded engine version out of the state snapshot
and may fail. -/
structure Workspace where
  stateVersion : Except String TfVersion

inductive TfCheckError where
  | stateVersionError (cause : String)
  | versionIncompatible
deriving DecidableEq, Repr

/-- Embeds TerraformProvider.checkTerraformVersion: read the state
version; fail when it is LessThan the configured default version. -/
def checkTerraformVersion (binCtx : TfBinContext) (ws : Workspace) :
    Except TfCheckError Unit :=
  match ws.stateVersion with
  | .error e => .error (.stateVersionError e)
  | .ok currentTfVersion =>
    if currentTfVersion.lessThan binCtx.defaultTfVersion then
      .error .versionIncompatible
    else
      .ok ()

/-- The provider state checkUpgrade needs: the deployment table
(GetTerraformDeployment abstracted to its outcome per GUID) and the
configured binary context. -/
structure TerraformProviderState where
  getTerraformDeployment : String → Except TfCheckError Workspace
  tfBinContext : TfBinContext

/-- Embeds TerraformProvider.CheckUpgradeAvailable: fetch the deployment,
propagate a fetch error, then run checkTerraformVersion on its workspace. -/
def CheckUpgradeAvailable (p : TerraformProviderState) (deploymentGUID : String) :
    Except TfCheckError Unit :=
  match p.getTerraformDeployment deploymentGUID with
  | .error e => .error e
  | .ok ws => checkTerraformVersion p.tfBinContext ws

/-! ## No-op encryptor
Embeds src/internal/encryption/noopencryptor/noopencryptor.go.
Go byte slices are lists of byte values. -/

abbrev ByteSeq := List Nat

/-- Embeds NoopEncryptor.Encrypt: returns the plaintext with no error. -/
def noopEncrypt (plaintext : ByteSeq) : Except String ByteSeq :=
  .ok plaintext

/-- Embeds NoopEncryptor.Decrypt: returns the ciphertext with no error. -/
def noopDecrypt (ciphertext : ByteSeq) : Except String ByteSeq :=
  .ok ciphertext

/-! ## Variable context builder
Modelled from the spec: the ContextBuilder implementation of
pkg/varcontext is absent from the sources (only its test file,
src/pkg/varcontext/builder_test.go, is present), so the builder
operations below follow section 4.3 of the spec, cross-checked against
the expectations recorded in the test file.

A Go map with unique keys is an association list read with first-match
lookup; the built context is a lookup function. Values model the
interface values that occur in the builder tests: strings, numeric
literals (kept as their literal text), booleans, and nested JSON
objects (so that wholesale replacement of nested values is visible). -/

inductive VcValue where
  | str (s : String)
  | num (lit : String)
  | bool (b : Bool)
  | obj (fields : List (String × VcValue))
deriving Repr

/-- Go map of variable values. -/
abbrev GoMap := List (String × VcValue)

/-- A built context: lookup by key. -/
abbrev VcContext := String → Option VcValue

/-- Write one key into a context (Go map assignment). -/
def ctxSet (ctx : VcContext) (k : String) (v : VcValue) : VcContext :=
  fun q => if q = k then some v else ctx q

/-- Merge a whole Go map into a context, each of its keys overwriting
(last-write-wins per key, nested values replaced wholesale). -/
def ctxMergeMap (ctx : VcContext) (m : GoMap) : VcContext :=
  fun q => match m.lookup q with
    | some v => some v
    | none => ctx q

/-- Variable types a default or eval result may be cast to.
The spec lists object, boolean, array, number, string, integer, unset;
the claims only exercise string and unset, modelled here together with
number and boolean. -/
inductive VcType where
  | tString
  | tNumber
  | tBoolean
  | tUnset
deriving DecidableEq, Repr

/-- Modelled from the spec: cast an evaluated value to a declared type,
failing with a TypeCastError when impossible. A number cast to string
becomes its literal text (the builder test expects out == "3.14"). -/
def castTo (t : VcType) (v : VcValue) : Except String VcValue :=
  match t, v with
  | .tUnset, v => .ok v
  | .tString, .str s => .ok (.str s)
  | .tString, .num l => .ok (.str l)
  | .tString, .bool b => .ok (.str (if b then "true" else "false"))
  | .tString, .obj _ => .error "TypeCastError: cannot cast object to string"
  | .tNumber, .num l => .ok (.num l)
  | .tNumber, _ => .error "TypeCastError: cannot cast to number"
  | .tBoolean, .bool b => .ok (.bool b)
  | .tBoolean, _ => .error "TypeCastError: cannot cast to boolean"

/-- An expression template: either a literal or a single variable
reference such as the test template "$\x7bPI\x7d". -/
inductive VcExpr where
  | lit (v : VcValue)
  | ref (k : String)
deriving Repr

/-- Modelled from the spec: the builder accumulates a context, an error
list (first failure short-circuits later calls), and the overlay of
eval constants that expression evaluation consults before the plain
context. -/
structure ContextBuilder where
  errors : List String
  context : VcContext
  evalConstants : GoMap

def ContextBuilder.empty : ContextBuilder :=
  { errors := [], context := fun _ => none, evalConstants := [] }

/-- Evaluate an expression: constants first, then the accumulated
context, unknown identifiers fail (EvaluationError). -/
def ContextBuilder.eval (b : ContextBuilder) (e : VcExpr) : Except String VcValue :=
  match e with
  | .lit v => .ok v
  | .ref k =>
    match b.evalConstants.lookup k with
    | some v => .ok v
    | none =>
      match b.context k with
      | some v => .ok v
      | none => .error ("EvaluationError: unknown identifier " ++ k)

/-- Modelled from the spec: MergeMap, unconditional last-write-wins per
key; a no-op after a previous failure. -/
def ContextBuilder.mergeMap (b : ContextBuilder) (m : GoMap) : ContextBuilder :=
  if b.errors.isEmpty then { b with context := ctxMergeMap b.context m } else b

/-- Modelled from the spec: MergeJSONObject merges the top-level keys of
a parsed flat object; a malformed input (the parse outcome is an error)
records a ParseError. -/
def ContextBuilder.mergeJSONObject (b : ContextBuilder) (parsed : Except String GoMap) :
    ContextBuilder :=
  if b.errors.isEmpty then
    match parsed with
    | .ok m => { b with context := ctxMergeMap b.context m }
    | .error e => { b with errors := [e] }
  else b

/-- Modelled from the spec: MergeEvalResult evaluates the expression
immediately against constants-over-context, casts, and stores under the
given name; evaluation or cast failure records the error. -/
def ContextBuilder.mergeEvalResult (b : ContextBuilder) (name : String) (e : VcExpr)
    (t : VcType) : ContextBuilder :=
  if b.errors.isEmpty then
    match b.eval e >>= castTo t with
    | .ok v => { b with context := ctxSet b.context name v }
    | .error err => { b with errors := [err] }
  else b

/-- Modelled from the spec: SetEvalConstants declares the constants
visible to every later expression evaluation at an overlay precedence
plain merges cannot shadow. -/
def ContextBuilder.setEvalConstants (b : ContextBuilder) (m : GoMap) : ContextBuilder :=
  if b.errors.isEmpty then { b with evalConstants := m } else b

/-- Modelled from the spec: Build finalizes to the context or surfaces
the first recorded error. -/
def ContextBuilder.build (b : ContextBuilder) : Except String VcContext :=
  match b.errors with
  | [] => .ok b.context
  | e :: _ => .error e

/-- One plain-merge call of claim C3: MergeMap or MergeJSONObject with a
well-formed object. -/
inductive MergeCall where
  | mapCall (m : GoMap)
  | jsonCall (m : GoMap)
deriving Repr

def MergeCall.toMap : MergeCall → GoMap
  | .mapCall m => m
  | .jsonCall m => m

def applyMergeCalls (b : ContextBuilder) (cs : List MergeCall) : ContextBuilder :=
  cs.foldl (fun b c =>
    match c with
    | .mapCall m => b.mergeMap m
    | .jsonCall m => b.mergeJSONObject (.ok m)) b

/-- The value supplied by the last call in the sequence that set key k,
written from the spec sentence of claim C3 (to be compared with the
builder semantics). -/
def lastSetValue (cs : List MergeCall) (k : String) : Option VcValue :=
  cs.foldl (fun acc c =>
    match c.toMap.lookup k with
    | some v => some v
    | none => acc) none

/-! ## Deployment store encode/decode
Embeds the Storage encode/decode helpers (internal/storage), present in
the sources alongside src/internal/storage/terraform_deployments_test.go.
The pluggable encryptor and the JSON unmarshaller for the receiver type
are passed in as functions. -/

/-- Embeds Storage.decodeBytes: decrypt, wrapping a failure as a
decryption error. -/
def decodeBytes (decrypt : ByteSeq → Except String ByteSeq) (a : ByteSeq) :
    Except String ByteSeq :=
  match decrypt a with
  | .error e => .error ("decryption error: " ++ e)
  | .ok d => .ok d

/-- Embeds Storage.decodeJSON: decode the bytes; propagate the error;
on an empty decoded sequence return success leaving the receiver as it
was; otherwise unmarshal into the receiver, wrapping a parse failure. -/
def decodeJSON (decrypt : ByteSeq → Except String ByteSeq)
    (unmarshal : ByteSeq → Except String α) (receiver : α) (a : ByteSeq) :
    Except String α :=
  match decodeBytes decrypt a with
  | .error e => .error e
  | .ok b =>
    if b.length = 0 then .ok receiver
    else
      match unmarshal b with
      | .error e => .error ("JSON parse error: " ++ e)
      | .ok v => .ok v

/-- A persisted deployment row (models.TerraformDeployment): the
encrypted workspace blob plus last-operation metadata. -/
structure DeploymentRow where
  workspace : ByteSeq
  lastOperationType : String
  lastOperationState : String
  lastOperationMessage : String

/-- A decoded deployment record handed back by the store, with the
workspace deserialized into the receiver type. -/
structure TerraformDeploymentRec (W : Type) where
  id : String
  workspace : W
  lastOperationType : String
  lastOperationState : String
  lastOperationMessage : String

/-- Store errors of the deployment store; a NotFoundError is a distinct
constructor from a DecodingError, which carries its cause. -/
inductive StorageError where
  | notFound (id : String)
  | decoding (id : String) (cause : String)
deriving DecidableEq, Repr

/-- Modelled from the spec: Storage.GetTerraformDeployment is absent
from the sources (only its test file is present). Per section 4.4 and
the test expectations: an absent id is a NotFoundError; otherwise the
stored blob is decoded with Storage.decodeJSON (above, from the source)
into a zero-valued workspace receiver, a decode failure becoming a
DecodingError wrapping the cause. -/
def getTerraformDeployment (decrypt : ByteSeq → Except String ByteSeq)
    (unmarshal : ByteSeq → Except String W) (zeroW : W)
    (db : List (String × DeploymentRow)) (id : String) :
    Except StorageError (TerraformDeploymentRec W) :=
  match db.lookup id with
  | none => .error (.notFound id)
  | some row =>
    match decodeJSON decrypt unmarshal zeroW row.workspace with
    | .error e => .error (.decoding id e)
    | .ok ws =>
      .ok { id := id, workspace := ws,
            lastOperationType := row.lastOperationType,
            lastOperationState := row.lastOperationState,
            lastOperationMessage := row.lastOperationMessage }

/-! ## Broker Deprovision
Embeds ServiceBroker.Deprovision (src/unnamed/part_003). The store is
explicit state (two tables keyed by id), every store call is recorded in
an event trace, and the collaborators the broker consults (service
definition and provider lookup, upgrade check, plan lookup, variable
resolution, the provider's own Deprovision) are abstracted to their
outcomes. Store faults model database errors on individual calls. -/

/-- A service-instance row (models.ServiceInstanceDetails as used by
Deprovision). -/
structure ServiceInstanceDetails where
  guid : String
  serviceGUID : String
  operationType : String
  operationGUID : String
deriving DecidableEq, Repr

/-- The operation-type constant models.DeprovisionOperationType. -/
def deprovisionOperationType : String := "deprovision"

structure StoreState where
  serviceInstances : String → Option ServiceInstanceDetails
  provisionRequestDetails : String → Option String

/-- Which store calls fail with a database error. -/
structure StoreFaults where
  existsFails : Bool
  getFails : Bool
  getProvisionRequestFails : Bool
  deleteInstanceFails : Bool
  deleteProvisionRequestFails : Bool
  storeInstanceFails : Bool
deriving DecidableEq, Repr

def noFaults : StoreFaults :=
  { existsFails := false, getFails := false, getProvisionRequestFails := false,
    deleteInstanceFails := false, deleteProvisionRequestFails := false,
    storeInstanceFails := false }

/-- One store call made by the broker, in issue order. -/
inductive StoreEvent where
  | existsServiceInstanceDetails (id : String)
  | getServiceInstanceDetails (id : String)
  | getProvisionRequestDetails (id : String)
  | deleteServiceInstanceDetails (id : String)
  | deleteProvisionRequestDetails (id : String)
  | storeServiceInstanceDetails (inst : ServiceInstanceDetails)
deriving DecidableEq, Repr

/-- The errors Deprovision can return, one constructor per return site
in the source. -/
inductive BrokerError where
  | asyncRequired
  | dbCheckError
  | instanceDoesNotExist
  | dbGetError
  | definitionError (cause : String)
  | failedToDelete (cause : String)
  | planError (cause : String)
  | provisionRequestDetailsError
  | provisionVariablesError (cause : String)
  | providerError (cause : String)
  | deleteInstanceDetailsError
  | deleteProvisionRequestDetailsError
  | storeInstanceDetailsError
deriving DecidableEq, Repr

structure DeprovisionServiceSpec where
  isAsync : Bool
  operationData : String
deriving DecidableEq, Repr

/-- The broker environment Deprovision runs in: the store plus the
outcomes of the abstracted collaborators. -/
structure BrokerEnv where
  store : StoreState
  faults : StoreFaults
  tfDeploymentID : String → String
  getDefinitionAndProvider : String → Except String Unit
  checkUpgradeAvailable : String → Except String Unit
  getPlanByID : String → Except String Unit
  provisionVariables : Except String Unit
  providerDeprovision : Except String (Option String)

structure DeprovisionOutcome where
  result : Except BrokerError DeprovisionServiceSpec
  store : StoreState
  events : List StoreEvent

/-- Embeds ServiceBroker.Deprovision, mirroring the source control flow
step by step: async gate, existence check, instance fetch, definition
and provider lookup, upgrade check, plan lookup, provision-request
parameters, variable resolution, provider deprovision, then either the
synchronous double delete or the asynchronous mark-and-store. -/
def Deprovision (env : BrokerEnv) (instanceID planID : String)
    (clientSupportsAsync : Bool) : DeprovisionOutcome :=
  if !clientSupportsAsync then
    ⟨.error .asyncRequired, env.store, []⟩
  else
    let ev0 := [StoreEvent.existsServiceInstanceDetails instanceID]
    if env.faults.existsFails then ⟨.error .dbCheckError, env.store, ev0⟩
    else if (env.store.serviceInstances instanceID).isNone then
      ⟨.error .instanceDoesNotExist, env.store, ev0⟩
    else
      let ev1 := ev0 ++ [StoreEvent.getServiceInstanceDetails instanceID]
      if env.faults.getFails then ⟨.error .dbGetError, env.store, ev1⟩
      else
        match env.store.serviceInstances instanceID with
        | none => ⟨.error .dbGetError, env.store, ev1⟩
        | some inst =>
          match env.getDefinitionAndProvider inst.serviceGUID with
          | .error e => ⟨.error (.definitionError e), env.store, ev1⟩
          | .ok () =>
          match env.checkUpgradeAvailable (env.tfDeploymentID instanceID) with
          | .error e => ⟨.error (.failedToDelete e), env.store, ev1⟩
          | .ok () =>
          match env.getPlanByID planID with
          | .error e => ⟨.error (.planError e), env.store, ev1⟩
          | .ok () =>
          let ev2 := ev1 ++ [StoreEvent.getProvisionRequestDetails instanceID]
          if env.faults.getProvisionRequestFails then
            ⟨.error .provisionRequestDetailsError, env.store, ev2⟩
          else
          match env.store.provisionRequestDetails instanceID with
          | none => ⟨.error .provisionRequestDetailsError, env.store, ev2⟩
          | some _parameters =>
          match env.provisionVariables with
          | .error e => ⟨.error (.provisionVariablesError e), env.store, ev2⟩
          | .ok () =>
          match env.providerDeprovision with
          | .error e => ⟨.error (.providerError e), env.store, ev2⟩
          | .ok none =>
            let ev3 := ev2 ++ [StoreEvent.deleteServiceInstanceDetails instanceID]
            if env.faults.deleteInstanceFails then
              ⟨.error .deleteInstanceDetailsError, env.store, ev3⟩
            else
              let store1 : StoreState :=
                { env.store with serviceInstances :=
                    fun q => if q = instanceID then none
                             else env.store.serviceInstances q }
              let ev4 := ev3 ++ [StoreEvent.deleteProvisionRequestDetails instanceID]
              if env.faults.deleteProvisionRequestFails then
                ⟨.error .deleteProvisionRequestDetailsError, store1, ev4⟩
              else
                let store2 : StoreState :=
                  { store1 with provisionRequestDetails :=
                      fun q => if q = instanceID then none
                               else store1.provisionRequestDetails q }
                ⟨.ok { isAsync := false, operationData := "" }, store2, ev4⟩
          | .ok (some operationID) =>
            let updated : ServiceInstanceDetails :=
              { inst with operationType := deprovisionOperationType,
                              operationGUID := operationID }
            let ev3 := ev2 ++ [StoreEvent.storeServiceInstanceDetails updated]
            if env.faults.storeInstanceFails then
              ⟨.error .storeInstanceDetailsError, env.store, ev3⟩
            else
              let store1 : StoreState :=
                { env.store with serviceInstances :=
                    fun q => if q = updated.guid then some updated
                             else env.store.serviceInstances q }
              ⟨.ok { isAsync := true, operationData := operationID }, store1, ev3⟩

/-! ## Terraform 0.12 invoker
Embeds Terraform012Invoker (src/unnamed/part_001). The side effect of
workspace.Execute — the command sequence submitted to the executor — is
made explicit in the result, alongside the output and error the Go
methods return. -/

inductive TfCommand where
  | init012 (pluginDirectory : String)
  | applyCmd
  | showCmd
  | destroyCmd
  | planCmd
  | importCmd (addr : String) (id : String)
deriving DecidableEq, Repr

structure ExecutionOutput where
  stdOut : String
  stdErr : String
deriving DecidableEq, Repr

/-- A workspace on which command sequences are executed; the executor
behaviour is abstracted to its outcome per command sequence. -/
structure ExecWorkspace where
  run : List TfCommand → ExecutionOutput × Option String

/-- Result of workspace.Execute with the submitted command sequence made
explicit. -/
structure ExecResult where
  commands : List TfCommand
  output : ExecutionOutput
  err : Option String

def ExecWorkspace.execute (ws : ExecWorkspace) (cmds : List TfCommand) : ExecResult :=
  { commands := cmds, output := (ws.run cmds).1, err := (ws.run cmds).2 }

structure Terraform012Invoker where
  pluginDirectory : String

/-- Embeds Terraform012Invoker.Apply: Execute with Init then Apply
(the Go method returns the err component). -/
def Terraform012Invoker.apply (cmd : Terraform012Invoker) (ws : ExecWorkspace) :
    ExecResult :=
  ws.execute [.init012 cmd.pluginDirectory, .applyCmd]

/-- Embeds Terraform012Invoker.Show: Execute with Init then Show
(the Go method returns output.StdOut and err). -/
def Terraform012Invoker.show (cmd : Terraform012Invoker) (ws : ExecWorkspace) :
    ExecResult :=
  ws.execute [.init012 cmd.pluginDirectory, .showCmd]

/-- Embeds Terraform012Invoker.Destroy: Execute with Init then Destroy. -/
def Terraform012Invoker.destroy (cmd : Terraform012Invoker) (ws : ExecWorkspace) :
    ExecResult :=
  ws.execute [.init012 cmd.pluginDirectory, .destroyCmd]

/-- Embeds Terraform012Invoker.Plan: Execute with Init then Plan. -/
def Terraform012Invoker.plan (cmd : Terraform012Invoker) (ws : ExecWorkspace) :
    ExecResult :=
  ws.execute [.init012 cmd.pluginDirectory, .planCmd]

/-- Embeds Terraform012Invoker.Import: Execute with Init followed by one
Import command per supplied resource pair (Go iterates the resources
map; iteration order is the list order here). -/
def Terraform012Invoker.importResources (cmd : Terraform012Invoker)
    (ws : ExecWorkspace) (resources : List (String × String)) : ExecResult :=
  ws.execute (.init012 cmd.pluginDirectory ::
    resources.map (fun r => .importCmd r.1 r.2))

/-! # Theorems -/

/-- Claim C1, counterexample: the claim as stated says the version check
fails exactly when the recorded state version is strictly greater than
the configured default and succeeds when equal or lower. At recorded
version 2.0.0 against configured default 1.0.0 (recorded strictly
greater) the check succeeds, and at recorded 1.0.0 against configured
2.0.0 (recorded strictly lower) it fails — both the opposite of the
claim. -/
theorem checkTerraformVersion_claim_counterexample :
    (checkTerraformVersion { defaultTfVersion := ⟨1, 0, 0⟩ }
      { stateVersion := .ok ⟨2, 0, 0⟩ } = .ok ()) ∧
    TfVersion.lessThan ⟨1, 0, 0⟩ ⟨2, 0, 0⟩ = true ∧
    (checkTerraformVersion { defaultTfVersion := ⟨2, 0, 0⟩ }
      { stateVersion := .ok ⟨1, 0, 0⟩ } = .error .versionIncompatible) := by
  refine ⟨rfl, rfl, rfl⟩

/-- Claim C1, amended: the version-compatibility check performed before
deprovisioning (CheckUpgradeAvailable / checkTerraformVersion) fails
exactly when the recorded state version is strictly LOWER than the
configured default engine version, and succeeds whenever the recorded
version is equal to or greater than the configured version. -/
theorem CheckUpgradeAvailable_fails_iff_state_older
    (p : TerraformProviderState) (guid : String) (ws : Workspace) (v : TfVersion)
    (hget : p.getTerraformDeployment guid = .ok ws)
    (hv : ws.stateVersion = .ok v) :
    (CheckUpgradeAvailable p guid = .error .versionIncompatible ↔
      v.lessThan p.tfBinContext.defaultTfVersion = true) ∧
    (CheckUpgradeAvailable p guid = .ok () ↔
      v.lessThan p.tfBinContext.defaultTfVersion = false) := by
  simp only [CheckUpgradeAvailable, hget, checkTerraformVersion, hv]
  by_cases h : v.lessThan p.tfBinContext.defaultTfVersion = true
  · simp [h]
  · rw [Bool.not_eq_true] at h
    simp [h]

/-- Witness for the amended claim C1: at recorded state version 1.2.3
equal to the configured default 1.2.3 the check succeeds, and at
recorded 1.2.2 against configured 1.2.3 it fails. -/
theorem CheckUpgradeAvailable_fails_iff_state_older_witness :
    (CheckUpgradeAvailable
      { getTerraformDeployment := fun _ => .ok { stateVersion := .ok ⟨1, 2, 3⟩ },
        tfBinContext := { defaultTfVersion := ⟨1, 2, 3⟩ } } "guid" = .ok ()) ∧
    (CheckUpgradeAvailable
      { getTerraformDeployment := fun _ => .ok { stateVersion := .ok ⟨1, 2, 2⟩ },
        tfBinContext := { defaultTfVersion := ⟨1, 2, 3⟩ } } "guid" =
      .error .versionIncompatible) := by
  constructor
  · exact (CheckUpgradeAvailable_fails_iff_state_older _ "guid" _ ⟨1, 2, 3⟩
      rfl rfl).2.mpr (by decide)
  · exact (CheckUpgradeAvailable_fails_iff_state_older _ "guid" _ ⟨1, 2, 2⟩
      rfl rfl).1.mpr (by decide)

/-- Claim C7: the no-op encryptor's Encrypt and Decrypt are both the
identity on byte sequences, never fail, and compose to the identity
round trip Decrypt(Encrypt(w)) = w for every byte sequence w, the empty
one included. -/
theorem noopEncryptor_roundtrip (w : ByteSeq) :
    noopEncrypt w = .ok w ∧ noopDecrypt w = .ok w ∧
    (noopEncrypt w >>= noopDecrypt) = .ok w :=
  ⟨rfl, rfl, rfl⟩

/-- Claim C8: for every workspace, Apply, Destroy, Plan and Show each
submit exactly the two-command sequence Init then the action, and Import
submits Init followed by one Import command per supplied resource pair;
nothing else is submitted. -/
theorem terraform012Invoker_command_sequences (cmd : Terraform012Invoker)
    (ws : ExecWorkspace) (resources : List (String × String)) :
    (cmd.apply ws).commands = [.init012 cmd.pluginDirectory, .applyCmd] ∧
    (cmd.destroy ws).commands = [.init012 cmd.pluginDirectory, .destroyCmd] ∧
    (cmd.plan ws).commands = [.init012 cmd.pluginDirectory, .planCmd] ∧
    (cmd.show ws).commands = [.init012 cmd.pluginDirectory, .showCmd] ∧
    (cmd.importResources ws resources).commands =
      .init012 cmd.pluginDirectory :: resources.map (fun r => .importCmd r.1 r.2) :=
  ⟨rfl, rfl, rfl, rfl, rfl⟩

/-- Applying a sequence of well-formed plain-merge calls keeps the error
list empty and folds each key of the context by last-write-wins, for any
starting builder without errors. -/
theorem applyMergeCalls_lookup (k : String) :
    ∀ (cs : List MergeCall) (b : ContextBuilder), b.errors = [] →
      (applyMergeCalls b cs).errors = [] ∧
      (applyMergeCalls b cs).context k =
        cs.foldl (fun acc c =>
          match c.toMap.lookup k with
          | some v => some v
          | none => acc) (b.context k) := by
  intro cs
  induction cs with
  | nil => intro b hb; exact ⟨hb, rfl⟩
  | cons c cs ih =>
    intro b hb
    have hbe : b.errors.isEmpty = true := by rw [hb]; rfl
    cases c with
    | mapCall m =>
      have hstep : b.mergeMap m = { b with context := ctxMergeMap b.context m } := by
        unfold ContextBuilder.mergeMap
        rw [hbe]
        rfl
      obtain ⟨e1, e2⟩ := ih (b.mergeMap m) (by rw [hstep, hb])
      refine ⟨e1, ?_⟩
      rw [List.foldl_cons]
      have hinit : (b.mergeMap m).context k =
          (match (MergeCall.mapCall m).toMap.lookup k with
           | some v => some v
           | none => b.context k) := by
        rw [hstep]
        rfl
      rw [show applyMergeCalls b (MergeCall.mapCall m :: cs) =
            applyMergeCalls (b.mergeMap m) cs from rfl, e2, hinit]
    | jsonCall m =>
      have hstep : b.mergeJSONObject (.ok m) =
          { b with context := ctxMergeMap b.context m } := by
        unfold ContextBuilder.mergeJSONObject
        rw [hbe]
        rfl
      obtain ⟨e1, e2⟩ := ih (b.mergeJSONObject (.ok m)) (by rw [hstep, hb])
      refine ⟨e1, ?_⟩
      rw [List.foldl_cons]
      have hinit : (b.mergeJSONObject (.ok m)).context k =
          (match (MergeCall.jsonCall m).toMap.lookup k with
           | some v => some v
           | none => b.context k) := by
        rw [hstep]
        rfl
      rw [show applyMergeCalls b (MergeCall.jsonCall m :: cs) =
            applyMergeCalls (b.mergeJSONObject (.ok m)) cs from rfl, e2, hinit]

/-- Claim C3: for any sequence of MergeMap and MergeJSONObject calls on
a fresh builder, the build succeeds and the value of each top-level key
of the built context equals the value supplied by the last call in the
sequence that set that key; nested values are whole values here, so a
later write replaces them wholesale. -/
theorem mergeCalls_last_write_wins (cs : List MergeCall) (k : String) :
    (applyMergeCalls ContextBuilder.empty cs).build =
      .ok (applyMergeCalls ContextBuilder.empty cs).context ∧
    (applyMergeCalls ContextBuilder.empty cs).context k = lastSetValue cs k := by
  obtain ⟨e1, e2⟩ := applyMergeCalls_lookup k cs ContextBuilder.empty rfl
  constructor
  · unfold ContextBuilder.build
    rw [e1]
  · exact e2

/-- Plain merges whose maps do not contain key k keep the error list
empty, leave the context at k unchanged, and never touch the declared
eval constants. -/
theorem foldl_mergeMap_untouched (k : String) :
    ∀ (ms : List GoMap) (b : ContextBuilder), b.errors = [] →
      (∀ m2 ∈ ms, m2.lookup k = none) →
      (ms.foldl (fun b m2 => b.mergeMap m2) b).errors = [] ∧
      (ms.foldl (fun b m2 => b.mergeMap m2) b).context k = b.context k ∧
      (ms.foldl (fun b m2 => b.mergeMap m2) b).evalConstants = b.evalConstants := by
  intro ms
  induction ms with
  | nil => intro b hb _; exact ⟨hb, rfl, rfl⟩
  | cons m ms ih =>
    intro b hb hms
    have hbe : b.errors.isEmpty = true := by rw [hb]; rfl
    have hstep : b.mergeMap m = { b with context := ctxMergeMap b.context m } := by
      unfold ContextBuilder.mergeMap
      rw [hbe]
      rfl
    obtain ⟨e1, e2, e3⟩ := ih (b.mergeMap m) (by rw [hstep, hb])
      (fun m2 hm2 => hms m2 (List.mem_cons_of_mem m hm2))
    refine ⟨e1, ?_, ?_⟩
    · rw [List.foldl_cons] at *
      rw [e2, hstep]
      show ctxMergeMap b.context m k = b.context k
      unfold ctxMergeMap
      rw [hms m (List.mem_cons_self m ms)]
    · rw [List.foldl_cons] at *
      rw [e3, hstep]

/-- Claim C2: after SetEvalConstants declares k with value c, a later
plain MergeMap of k with value v, and any further plain merges not
touching k, a MergeEvalResult referencing k evaluates k to the constant
c (cast per its declared type), while direct map lookup of k in the
built context still returns the plain-merged value v. -/
theorem setEvalConstants_overlay_not_shadowed
    (b0 : ContextBuilder) (hb0 : b0.errors = [])
    (cs : GoMap) (k : String) (c : VcValue) (hk : cs.lookup k = some c)
    (m : GoMap) (v : VcValue) (hm : m.lookup k = some v)
    (ms : List GoMap) (hms : ∀ m2 ∈ ms, m2.lookup k = none)
    (n : String) (hn : n ≠ k) (t : VcType) (cv : VcValue)
    (hcast : castTo t c = .ok cv) :
    ((ms.foldl (fun b m2 => b.mergeMap m2)
        ((b0.setEvalConstants cs).mergeMap m)).mergeEvalResult n (.ref k) t).build =
      .ok ((ms.foldl (fun b m2 => b.mergeMap m2)
        ((b0.setEvalConstants cs).mergeMap m)).mergeEvalResult n (.ref k) t).context ∧
    ((ms.foldl (fun b m2 => b.mergeMap m2)
        ((b0.setEvalConstants cs).mergeMap m)).mergeEvalResult n (.ref k) t).context n =
      some cv ∧
    ((ms.foldl (fun b m2 => b.mergeMap m2)
        ((b0.setEvalConstants cs).mergeMap m)).mergeEvalResult n (.ref k) t).context k =
      some v := by
  have hb0e : b0.errors.isEmpty = true := by rw [hb0]; rfl
  have h1 : b0.setEvalConstants cs = { b0 with evalConstants := cs } := by
    unfold ContextBuilder.setEvalConstants
    rw [hb0e]
    rfl
  have h2 : (b0.setEvalConstants cs).mergeMap m =
      { b0 with evalConstants := cs, context := ctxMergeMap b0.context m } := by
    rw [h1]
    unfold ContextBuilder.mergeMap
    rw [show ({ b0 with evalConstants := cs } : ContextBuilder).errors.isEmpty = true
      from by rw [hb0e]]
    rfl
  set b2 := (b0.setEvalConstants cs).mergeMap m with hb2
  obtain ⟨e1, e2, e3⟩ := foldl_mergeMap_untouched k ms b2 (by rw [h2, hb0]) hms
  set b3 := ms.foldl (fun b m2 => b.mergeMap m2) b2 with hb3
  have hb3e : b3.errors.isEmpty = true := by rw [e1]; rfl
  have hctxk : b3.context k = some v := by
    rw [e2, h2]
    show ctxMergeMap b0.context m k = some v
    unfold ctxMergeMap
    rw [hm]
  have heval : b3.eval (.ref k) = .ok c := by
    unfold ContextBuilder.eval
    rw [e3, h2]
    show (match cs.lookup k with
          | some v => Except.ok v
          | none => _) = Except.ok c
    rw [hk]
  have h4 : b3.mergeEvalResult n (.ref k) t =
      { b3 with context := ctxSet b3.context n cv } := by
    unfold ContextBuilder.mergeEvalResult
    rw [hb3e, heval]
    show (match castTo t c with
          | .ok v => { b3 with context := ctxSet b3.context n v }
          | .error err => { b3 with errors := [err] }) = _
    rw [hcast]
  rw [h4]
  refine ⟨?_, ?_, ?_⟩
  · unfold ContextBuilder.build
    rw [show ({ b3 with context := ctxSet b3.context n cv } : ContextBuilder).errors = []
      from e1]
  · show ctxSet b3.context n cv n = some cv
    unfold ctxSet
    rw [if_pos rfl]
  · show ctxSet b3.context n cv k = some v
    unfold ctxSet
    rw [if_neg (fun h => hn h.symm), hctxk]

/-- Witness for claim C2, the spec scenario: constants PI = 3.14, then a
plain merge PI = 3.2, then MergeEvalResult out = the reference to PI
cast to string, yields out = "3.14" while PI = 3.2 stays the direct
lookup value. -/
theorem setEvalConstants_overlay_not_shadowed_witness :
    ((([] : List GoMap).foldl (fun b m2 => b.mergeMap m2)
        ((ContextBuilder.empty.setEvalConstants [("PI", .num "3.14")]).mergeMap
          [("PI", .num "3.2")])).mergeEvalResult "out" (.ref "PI") .tString).context
      "out" = some (.str "3.14") ∧
    ((([] : List GoMap).foldl (fun b m2 => b.mergeMap m2)
        ((ContextBuilder.empty.setEvalConstants [("PI", .num "3.14")]).mergeMap
          [("PI", .num "3.2")])).mergeEvalResult "out" (.ref "PI") .tString).context
      "PI" = some (.num "3.2") := by
  have h := setEvalConstants_overlay_not_shadowed ContextBuilder.empty rfl
    [("PI", .num "3.14")] "PI" (.num "3.14") rfl
    [("PI", .num "3.2")] (.num "3.2") rfl
    [] (by intro m2 hm2; cases hm2)
    "out" (by decide) .tString (.str "3.14") rfl
  exact ⟨h.2.1, h.2.2⟩

/-- Claim C4: Deprovision called with clientSupportsAsync = false
returns the AsyncRequired error for every environment and instance,
leaves the store untouched, and issues no store call at all — in
particular no lookup of whether the instance exists. -/
theorem Deprovision_asyncRequired (env : BrokerEnv) (instanceID planID : String) :
    (Deprovision env instanceID planID false).result = .error .asyncRequired ∧
    (Deprovision env instanceID planID false).events = [] ∧
    (Deprovision env instanceID planID false).store = env.store :=
  ⟨rfl, rfl, rfl⟩

/-- Claim C5: when the provider's Deprovision reports synchronous
completion (no operation id), the broker deletes the instance-details
row and the cached provision request parameters and never stores an
instance row; when it reports an operation id, the broker stores the
instance row marked with the deprovision operation type and that
operation id, leaves the provision request parameters alone, and issues
no deletion. -/
theorem Deprovision_sync_deletes_async_marks
    (env : BrokerEnv) (instanceID planID : String)
    (inst : ServiceInstanceDetails) (params : String)
    (hf : env.faults = noFaults)
    (hinst : env.store.serviceInstances instanceID = some inst)
    (hdef : env.getDefinitionAndProvider inst.serviceGUID = .ok ())
    (hupg : env.checkUpgradeAvailable (env.tfDeploymentID instanceID) = .ok ())
    (hplan : env.getPlanByID planID = .ok ())
    (hparams : env.store.provisionRequestDetails instanceID = some params)
    (hvars : env.provisionVariables = .ok ()) :
    (env.providerDeprovision = .ok none →
      (Deprovision env instanceID planID true).result =
        .ok { isAsync := false, operationData := "" } ∧
      (Deprovision env instanceID planID true).store.serviceInstances instanceID =
        none ∧
      (Deprovision env instanceID planID true).store.provisionRequestDetails
        instanceID = none ∧
      ∀ i, StoreEvent.storeServiceInstanceDetails i ∉
        (Deprovision env instanceID planID true).events) ∧
    (∀ opID, env.providerDeprovision = .ok (some opID) →
      (Deprovision env instanceID planID true).result =
        .ok { isAsync := true, operationData := opID } ∧
      (Deprovision env instanceID planID true).store.serviceInstances inst.guid =
        some { inst with operationType := deprovisionOperationType,
                         operationGUID := opID } ∧
      (Deprovision env instanceID planID true).store.provisionRequestDetails =
        env.store.provisionRequestDetails ∧
      StoreEvent.deleteServiceInstanceDetails instanceID ∉
        (Deprovision env instanceID planID true).events ∧
      StoreEvent.deleteProvisionRequestDetails instanceID ∉
        (Deprovision env instanceID planID true).events) := by
  constructor
  · intro hprov
    simp [Deprovision, hf, noFaults, hinst, hdef, hupg, hplan, hparams, hvars, hprov]
  · intro opID hprov
    simp [Deprovision, hf, noFaults, hinst, hdef, hupg, hplan, hparams, hvars, hprov]

/-- Claim C9: the two deletions of the synchronous path are independent
store operations: when the instance-details deletion succeeds and the
provision-request-details deletion fails, Deprovision returns an error
while the instance row is already gone and the provision-request row is
left behind orphaned. -/
theorem Deprovision_sync_partial_delete
    (env : BrokerEnv) (instanceID planID : String)
    (inst : ServiceInstanceDetails) (params : String)
    (hf : env.faults = { noFaults with deleteProvisionRequestFails := true })
    (hinst : env.store.serviceInstances instanceID = some inst)
    (hdef : env.getDefinitionAndProvider inst.serviceGUID = .ok ())
    (hupg : env.checkUpgradeAvailable (env.tfDeploymentID instanceID) = .ok ())
    (hplan : env.getPlanByID planID = .ok ())
    (hparams : env.store.provisionRequestDetails instanceID = some params)
    (hvars : env.provisionVariables = .ok ())
    (hprov : env.providerDeprovision = .ok none) :
    (Deprovision env instanceID planID true).result =
      .error .deleteProvisionRequestDetailsError ∧
    (Deprovision env instanceID planID true).store.serviceInstances instanceID =
      none ∧
    (Deprovision env instanceID planID true).store.provisionRequestDetails
      instanceID = some params := by
  simp [Deprovision, hf, noFaults, hinst, hdef, hupg, hplan, hparams, hvars, hprov]

/-! Concrete environment used by the Deprovision witnesses. -/

def sampleInst : ServiceInstanceDetails :=
  { guid := "i-1", serviceGUID := "s-1", operationType := "", operationGUID := "" }

def sampleStore : StoreState :=
  { serviceInstances := fun q => if q = "i-1" then some sampleInst else none,
    provisionRequestDetails := fun q => if q = "i-1" then some "{}" else none }

def sampleEnv (faults : StoreFaults) (prov : Except String (Option String)) :
    BrokerEnv :=
  { store := sampleStore, faults := faults,
    tfDeploymentID := fun s => "tf:" ++ s ++ ":",
    getDefinitionAndProvider := fun _ => .ok (),
    checkUpgradeAvailable := fun _ => .ok (),
    getPlanByID := fun _ => .ok (),
    provisionVariables := .ok (),
    providerDeprovision := prov }

/-- Witness for claim C5: in a concrete fault-free environment holding
instance i-1, a synchronous provider completion answers success with no
operation data, and an asynchronous completion answers the operation id
op-1 with the row re-stored under the deprovision operation type. -/
theorem Deprovision_sync_deletes_async_marks_witness :
    (Deprovision (sampleEnv noFaults (.ok none)) "i-1" "p-1" true).result =
      .ok { isAsync := false, operationData := "" } ∧
    (Deprovision (sampleEnv noFaults (.ok none)) "i-1" "p-1"
      true).store.serviceInstances "i-1" = none ∧
    (Deprovision (sampleEnv noFaults (.ok (some "op-1"))) "i-1" "p-1" true).result =
      .ok { isAsync := true, operationData := "op-1" } ∧
    (Deprovision (sampleEnv noFaults (.ok (some "op-1"))) "i-1" "p-1"
      true).store.serviceInstances "i-1" =
      some { sampleInst with operationType := deprovisionOperationType,
                             operationGUID := "op-1" } := by
  have h1 := (Deprovision_sync_deletes_async_marks (sampleEnv noFaults (.ok none))
    "i-1" "p-1" sampleInst "{}" rfl rfl rfl rfl rfl rfl rfl).1 rfl
  have h2 := (Deprovision_sync_deletes_async_marks
    (sampleEnv noFaults (.ok (some "op-1")))
    "i-1" "p-1" sampleInst "{}" rfl rfl rfl rfl rfl rfl rfl).2 "op-1" rfl
  exact ⟨h1.1, h1.2.1, h2.1, h2.2.1⟩

/-- Claim C6: GetTerraformDeployment on an absent id is the not-found
error; on an id whose blob fails decryption it is the decoding error
wrapping the decryption cause; and the two error outcomes are distinct
for every id and cause. -/
theorem getTerraformDeployment_error_outcomes
    {W : Type} (decrypt : ByteSeq → Except String ByteSeq)
    (unmarshal : ByteSeq → Except String W) (zeroW : W)
    (db : List (String × DeploymentRow)) (id : String) :
    (db.lookup id = none →
      getTerraformDeployment decrypt unmarshal zeroW db id =
        .error (.notFound id)) ∧
    (∀ row cause, db.lookup id = some row →
      decrypt row.workspace = .error cause →
      getTerraformDeployment decrypt unmarshal zeroW db id =
        .error (.decoding id ("decryption error: " ++ cause))) ∧
    (∀ i1 i2 c, StorageError.notFound i1 ≠ StorageError.decoding i2 c) := by
  refine ⟨?_, ?_, ?_⟩
  · intro h
    simp [getTerraformDeployment, h]
  · intro row cause h1 h2
    simp [getTerraformDeployment, h1, decodeJSON, decodeBytes, h2]
  · intro i1 i2 c
    simp

/-! Concrete store contents used by the storage witnesses, mirroring the
fixtures of the storage test file: one row whose blob the encryptor
refuses to decrypt, one row whose blob decrypts to the empty sequence. -/

def badBlob : ByteSeq := [99, 99, 99]

def sampleDecrypt (b : ByteSeq) : Except String ByteSeq :=
  if b = badBlob then .error "fake decryption error" else .ok []

def sampleRow : DeploymentRow :=
  { workspace := badBlob, lastOperationType := "create",
    lastOperationState := "succeeded", lastOperationMessage := "amazing" }

def emptyBlobRow : DeploymentRow :=
  { workspace := [7], lastOperationType := "update",
    lastOperationState := "failed", lastOperationMessage := "too bad" }

def sampleUnmarshal (_ : ByteSeq) : Except String String := .error "unused"

def sampleDb : List (String × DeploymentRow) :=
  [("fake-id-1", sampleRow), ("fake-id-2", emptyBlobRow)]

/-- Witness for claim C6: in the concrete store, the absent id yields
the not-found error and the undecryptable blob yields the decoding
error wrapping the fake decryption cause. -/
theorem getTerraformDeployment_error_outcomes_witness :
    getTerraformDeployment sampleDecrypt sampleUnmarshal "" sampleDb "not-there" =
      .error (.notFound "not-there") ∧
    getTerraformDeployment sampleDecrypt sampleUnmarshal "" sampleDb "fake-id-1" =
      .error (.decoding "fake-id-1" "decryption error: fake decryption error") := by
  constructor
  · exact (getTerraformDeployment_error_outcomes sampleDecrypt sampleUnmarshal ""
      sampleDb "not-there").1 rfl
  · exact (getTerraformDeployment_error_outcomes sampleDecrypt sampleUnmarshal ""
      sampleDb "fake-id-1").2.1 sampleRow "fake decryption error" rfl rfl

/-- Claim C10: decodeJSON on a blob whose decryption yields the empty
byte sequence returns success leaving the receiver at the value it was
called with (its zero value), and a deployment row whose stored blob
decrypts to empty is read back as a record with the zero-valued
workspace and no error. -/
theorem decodeJSON_empty_decryption
    {W : Type} (decrypt : ByteSeq → Except String ByteSeq)
    (unmarshal : ByteSeq → Except String W) (zeroW : W)
    (a : ByteSeq) (ha : decrypt a = .ok [])
    (db : List (String × DeploymentRow)) (id : String) (row : DeploymentRow)
    (hrow : db.lookup id = some row)
    (hblob : decrypt row.workspace = .ok []) :
    decodeJSON decrypt unmarshal zeroW a = .ok zeroW ∧
    getTerraformDeployment decrypt unmarshal zeroW db id =
      .ok { id := id, workspace := zeroW,
            lastOperationType := row.lastOperationType,
            lastOperationState := row.lastOperationState,
            lastOperationMessage := row.lastOperationMessage } := by
  constructor
  · simp [decodeJSON, decodeBytes, ha]
  · simp [getTerraformDeployment, decodeJSON, decodeBytes, hrow, hblob]

/-- Witness for claim C10: in the concrete store, the row whose blob
decrypts to the empty sequence is read back without error as the
zero-valued workspace with its stored metadata. -/
theorem decodeJSON_empty_decryption_witness :
    decodeJSON sampleDecrypt sampleUnmarshal "" ([7] : ByteSeq) = .ok "" ∧
    getTerraformDeployment sampleDecrypt sampleUnmarshal "" sampleDb "fake-id-2" =
      .ok { id := "fake-id-2", workspace := "",
            lastOperationType := "update", lastOperationState := "failed",
            lastOperationMessage := "too bad" } :=
  decodeJSON_empty_decryption sampleDecrypt sampleUnmarshal "" [7] rfl
    sampleDb "fake-id-2" emptyBlobRow rfl rfl

/-- Witness for claim C9: concretely, with the provision-request
deletion failing, Deprovision errors while instance row i-1 is removed
and its provision-request row survives. -/
theorem Deprovision_sync_partial_delete_witness :
    (Deprovision (sampleEnv { noFaults with deleteProvisionRequestFails := true }
      (.ok none)) "i-1" "p-1" true).result =
      .error .deleteProvisionRequestDetailsError ∧
    (Deprovision (sampleEnv { noFaults with deleteProvisionRequestFails := true }
      (.ok none)) "i-1" "p-1" true).store.serviceInstances "i-1" = none ∧
    (Deprovision (sampleEnv { noFaults with deleteProvisionRequestFails := true }
      (.ok none)) "i-1" "p-1" true).store.provisionRequestDetails "i-1" =
      some "{}" :=
  Deprovision_sync_partial_delete
    (sampleEnv { noFaults with deleteProvisionRequestFails := true } (.ok none))
    "i-1" "p-1" sampleInst "{}" rfl rfl rfl rfl rfl rfl rfl rfl

end CSB
